import Mathlib

/-!
Verification development for the Excel reconciliation validator
(`validator.py`).  The Python code is shallowly embedded: cell values
become an inductive `Cell` type (floats are abstracted as exact decimal
rationals), pandas rows become association lists from column labels to
cells, and each validation routine becomes an executable Lean function
translated line by line from the source.  Theorems at the end settle the
specification claims against these definitions.
-/

set_option maxRecDepth 4000

/-! ## Character-level helpers (ASCII model of Python `str` operations) -/

/-- Python word character (`\w`) restricted to ASCII: letter, digit or `_`. -/
def wordCharB (c : Char) : Bool :=
  decide ((97 ≤ c.toNat ∧ c.toNat ≤ 122) ∨ (65 ≤ c.toNat ∧ c.toNat ≤ 90) ∨
    (48 ≤ c.toNat ∧ c.toNat ≤ 57) ∨ c.toNat = 95)

/-- Python whitespace (`str.strip` / regex `\s`): space, TAB, LF, CR, VT, FF. -/
def spaceB (c : Char) : Bool :=
  decide (c.toNat = 32 ∨ c.toNat = 9 ∨ c.toNat = 10 ∨ c.toNat = 13 ∨
    c.toNat = 11 ∨ c.toNat = 12)

/-- ASCII decimal digit. -/
def digitB (c : Char) : Bool := decide (48 ≤ c.toNat ∧ c.toNat ≤ 57)

/-- `str.upper` on one ASCII character. -/
def pyUpper (c : Char) : Char :=
  if 97 ≤ c.toNat ∧ c.toNat ≤ 122 then Char.ofNat (c.toNat - 32) else c

/-- `str.lower` on one ASCII character. -/
def pyLower (c : Char) : Char :=
  if 65 ≤ c.toNat ∧ c.toNat ≤ 90 then Char.ofNat (c.toNat + 32) else c

def upperL (s : List Char) : List Char := s.map pyUpper

def lowerL (s : List Char) : List Char := s.map pyLower

/-- Drop trailing characters satisfying `p` (right half of `str.strip`). -/
def dropEnd (p : Char → Bool) (s : List Char) : List Char :=
  (s.reverse.dropWhile p).reverse

/-- Python `str.strip()`: remove leading and trailing whitespace. -/
def pyStrip (s : List Char) : List Char := dropEnd spaceB (s.dropWhile spaceB)

/-- Python `str.rstrip(ch)`: remove all trailing occurrences of `ch`. -/
def pyRstrip (ch : Char) (s : List Char) : List Char := dropEnd (· == ch) s

/-- Decimal digits of a natural number (auxiliary, fuelled). -/
def natDigitsAux : Nat → Nat → List Char
  | 0, _ => []
  | f + 1, n => if n = 0 then [] else natDigitsAux f (n / 10) ++ [Char.ofNat (48 + n % 10)]

/-- Decimal representation of a natural number. -/
def natDigits (n : Nat) : List Char :=
  if n = 0 then ['0'] else natDigitsAux (n + 1) n

/-- Python `str(int)`. -/
def intStr (n : ℤ) : List Char :=
  if n < 0 then '-' :: natDigits (-n).toNat else natDigits n.toNat

/-- Left-pad a digit string with `'0'` to width `w`. -/
def natPad (w : Nat) (n : Nat) : List Char :=
  List.replicate (w - (natDigits n).length) '0' ++ natDigits n

/-- Python `f"{x:.10f}"` for a nonnegative decimal value: integer part,
a dot, and exactly ten fractional digits (round half up; the abstraction
of binary doubles as exact decimals makes ties immaterial). -/
def formatFixed10nn (q : ℚ) : List Char :=
  let n : Nat := (⌊q * 10 ^ 10 + 1 / 2⌋).toNat
  natDigits (n / 10 ^ 10) ++ '.' :: natPad 10 (n % 10 ^ 10)

/-- Python `f"{x:.10f}"`, signed. -/
def formatFixed10 (q : ℚ) : List Char :=
  if q < 0 then '-' :: formatFixed10nn (-q) else formatFixed10nn q

/-! ## Cell values

A pandas cell as seen by the validator: missing (`NaN`), an integer, a
float (modelled as an exact decimal rational), or a string. -/

inductive Cell where
  | blank
  | intv (n : ℤ)
  | fl (q : ℚ)
  | str (s : List Char)
deriving DecidableEq

/-- Shortest decimal rendering of a nonnegative float value: `rstrip`
the ten fixed fractional digits, keeping at least one digit (`5.0`). -/
def flStrNN (q : ℚ) : List Char :=
  let n : Nat := (⌊q * 10 ^ 10 + 1 / 2⌋).toNat
  let frac := (natPad 10 (n % 10 ^ 10)).reverse.dropWhile (· == '0') |>.reverse
  natDigits (n / 10 ^ 10) ++ '.' :: (if frac = [] then ['0'] else frac)

/-- Python `str(cell)`: `nan` for missing values, decimal renderings for
numbers (floats abstracted as exact decimals), identity on strings. -/
def pyStr : Cell → List Char
  | Cell.blank => "nan".data
  | Cell.intv n => intStr n
  | Cell.fl q => if q < 0 then '-' :: flStrNN (-q) else flStrNN q
  | Cell.str s => s

/-! ## Identifier Normalizer (`clean_pn_value`, validator.py:61-65) -/

/-- Characters kept by `re.sub(r'[^A-Z0-9]', '', ...)`. -/
def allowedB (c : Char) : Bool :=
  decide ((65 ≤ c.toNat ∧ c.toNat ≤ 90) ∨ (48 ≤ c.toNat ∧ c.toNat ≤ 57))

/-- The sentinel returned for values that normalize to nothing. -/
def nA : List Char := "N/A".data

/-- `clean_pn_value` on an already-stringified value:
upper-case, strip, drop every character outside `[A-Z0-9]`,
and fall back to the sentinel `"N/A"` when nothing remains. -/
def clean_pn_core (s : List Char) : List Char :=
  if (pyStrip (upperL s)).filter allowedB = [] then nA
  else (pyStrip (upperL s)).filter allowedB

/-- `clean_pn_value` on a raw cell (the Python function starts with `str(...)`). -/
def clean_pn_value (c : Cell) : List Char := clean_pn_core (pyStr c)

/-! ## Header Locator (`is_header_row`, validator.py:42-59)

The four required-concept regexes are embedded directly as bounded
searches over the joined row text.  `\b` is the Python word boundary,
`.*` consumes any run of non-newline characters, `\s*` any whitespace
run. -/

/-- Is the character at position `i` a word character (out of range counts
as a non-word position)? -/
def wAt (s : List Char) (i : Nat) : Bool :=
  match s.get? i with
  | some c => wordCharB c
  | none => false

/-- Regex `\b`: word boundary before position `i`. -/
def bAt (s : List Char) (i : Nat) : Bool :=
  (if i = 0 then false else wAt s (i - 1)) != wAt s i

/-- The literal `lit` occurs in `s` starting at position `i`. -/
def litAt (s : List Char) (i : Nat) (lit : List Char) : Bool :=
  ((s.drop i).take lit.length) == lit

/-- Some position `i < n` satisfies `f`. -/
def anyIdx (n : Nat) (f : Nat → Bool) : Bool := (List.range n).any f

/-- Length of the run of non-newline characters starting at `p`
(how far `.*` can reach). -/
def dotReach (s : List Char) (p : Nat) : Nat :=
  ((s.drop p).takeWhile (· != '\n')).length

/-- Length of the whitespace run starting at `p` (how far `\s*` can reach). -/
def wsReach (s : List Char) (p : Nat) : Nat :=
  ((s.drop p).takeWhile spaceB).length

/-- Regex `\bitem\b.*\bno`. -/
def itemMatch (s : List Char) : Bool :=
  anyIdx (s.length + 1) fun i =>
    bAt s i && litAt s i "item".data && bAt s (i + 4) &&
      anyIdx (dotReach s (i + 4) + 1) fun d =>
        bAt s (i + 4 + d) && litAt s (i + 4 + d) "no".data

/-- Regex `\bmodel\b.*\bno`. -/
def modelMatch (s : List Char) : Bool :=
  anyIdx (s.length + 1) fun i =>
    bAt s i && litAt s i "model".data && bAt s (i + 5) &&
      anyIdx (dotReach s (i + 5) + 1) fun d =>
        bAt s (i + 5 + d) && litAt s (i + 5 + d) "no".data

/-- Regex `\b(p/n|part\s*no)\b`. -/
def partMatch (s : List Char) : Bool :=
  anyIdx (s.length + 1) fun i =>
    bAt s i &&
      ((litAt s i "p/n".data && bAt s (i + 3)) ||
       (litAt s i "part".data &&
         anyIdx (wsReach s (i + 4) + 1) fun m =>
           litAt s (i + 4 + m) "no".data && bAt s (i + 4 + m + 2)))

/-- Regex `\bquantity\b.*\b(pcs|pc)\b`. -/
def quantityMatch (s : List Char) : Bool :=
  anyIdx (s.length + 1) fun i =>
    bAt s i && litAt s i "quantity".data && bAt s (i + 8) &&
      anyIdx (dotReach s (i + 8) + 1) fun d =>
        bAt s (i + 8 + d) &&
          ((litAt s (i + 8 + d) "pcs".data && bAt s (i + 8 + d + 3)) ||
           (litAt s (i + 8 + d) "pc".data && bAt s (i + 8 + d + 2)))

/-- `' '.join(str(cell).strip() for cell in row.values).lower()`. -/
def rowText (row : List Cell) : List Char :=
  lowerL (List.intercalate [' '] (row.map fun c => pyStrip (pyStr c)))

/-- Number of the four required-concept patterns matching the row text. -/
def matchCount (s : List Char) : Nat :=
  (cond (itemMatch s) 1 0) + (cond (modelMatch s) 1 0) +
    (cond (partMatch s) 1 0) + (cond (quantityMatch s) 1 0)

/-- `is_header_row`: at least three of the four concepts found. -/
def is_header_row (row : List Cell) : Bool :=
  decide (3 ≤ matchCount (rowText row))

/-- First header row within a window of `limit` rows
(`for idx, row in df.head(5).iterrows(): if self.is_header_row(row)` in
`extract_valid_data`; the identical bounded scan appears in
`load_shipping_data`). -/
def firstHeaderIdx : List (List Cell) → Nat → Option Nat
  | [], _ => none
  | r :: rs, limit =>
    match limit with
    | 0 => none
    | limit' + 1 =>
      if is_header_row r then some 0 else (firstHeaderIdx rs limit').map (· + 1)

/-- Header search over the first five rows of a raw grid. -/
def findHeader5 (rows : List (List Cell)) : Option Nat := firstHeaderIdx rows 5

/-- Header test of `load_duty_rates` (validator.py:207-210): the row
contains the exact cells `'Item name'` and `'India HS code'`. -/
def dutyHeaderPred (row : List Cell) : Bool :=
  row.contains (Cell.str "Item name".data) && row.contains (Cell.str "India HS code".data)

/-- Header search of `load_duty_rates`: scans every row of the grid
(`for idx, row in df.iterrows()`), with no five-row window. -/
def find_duty_header (rows : List (List Cell)) : Option Nat :=
  rows.findIdx? dutyHeaderPred

/-! ## Text similarity (`difflib.SequenceMatcher.ratio`)

Faithful embedding of `find_longest_match` and `get_matching_blocks`
for short strings (all compared strings are far below the 200-element
autojunk threshold, so the junk machinery never engages and the junk
extension loops are no-ops). -/

/-- One row of the `find_longest_match` dynamic program: scan `j` over
`[blo, bhi)`, building the new `j2len` row and updating the best block.
State: (new row, best i, best j, best size). -/
def flmRow (a b : List Char) (blo bhi i : Nat)
    (oldRow : List Nat) (best : Nat × Nat × Nat) : List Nat × (Nat × Nat × Nat) :=
  let st := (List.range' blo (bhi - blo)).foldl
    (fun (st : List Nat × Nat × Nat × Nat) j =>
      if a.getD i ' ' == b.getD j ' ' then
        let k := (if j = 0 then 0 else oldRow.getD (j - 1) 0) + 1
        if st.2.2.2 < k then (st.1.set j k, i + 1 - k, j + 1 - k, k)
        else (st.1.set j k, st.2)
      else st)
    (List.replicate b.length 0, best.1, best.2.1, best.2.2)
  (st.1, st.2)

/-- `find_longest_match(alo, ahi, blo, bhi)`: longest block of contiguous
equal elements, ties resolved exactly as in difclib's scan order. -/
def flm (a b : List Char) (alo ahi blo bhi : Nat) : Nat × Nat × Nat :=
  ((List.range' alo (ahi - alo)).foldl
    (fun (st : List Nat × (Nat × Nat × Nat)) i => flmRow a b blo bhi i st.1 st.2)
    (List.replicate b.length 0, (alo, blo, 0))).2

/-- Total size of all matching blocks (the `M` of `ratio`): recursive
decomposition around the longest match, as in `get_matching_blocks`.
`fuel` bounds the recursion depth; `a.length + 1` always suffices. -/
def blocksSum : Nat → List Char → List Char → Nat → Nat → Nat → Nat → Nat
  | 0, _, _, _, _, _, _ => 0
  | fuel + 1, a, b, alo, ahi, blo, bhi =>
    let r := flm a b alo ahi blo bhi
    if r.2.2 = 0 then 0
    else blocksSum fuel a b alo r.1 blo r.2.1 + r.2.2 +
      blocksSum fuel a b (r.1 + r.2.2) ahi (r.2.1 + r.2.2) bhi

/-- `M`: total matched elements between `a` and `b`. -/
def totalM (a b : List Char) : Nat :=
  blocksSum (a.length + 1) a b 0 a.length 0 b.length

/-- `SequenceMatcher(None, a, b).ratio() = 2M / (len(a) + len(b))`
(1 when both are empty, as in `difflib._calculate_ratio`). -/
def ratioQ (a b : List Char) : ℚ :=
  if a.length + b.length = 0 then 1
  else 2 * (totalM a b : ℚ) / ((a.length : ℚ) + (b.length : ℚ))

/-! ## Records, errors, and the field validators -/

/-- A pandas row as consumed through `.get`: column label to cell. -/
def Row := List (List Char × Cell)
deriving DecidableEq

/-- `row.get(key)` — first binding of the label, if any. -/
def rowGet (r : Row) (k : List Char) : Option Cell :=
  (List.find? (fun p => p.1 == k) r).map (·.2)

/-- `row.get(key, default)`. -/
def rowGetD (r : Row) (k : List Char) (d : Cell) : Cell := (rowGet r k).getD d

/-- The kinds of validation errors `log_error` can record. -/
inductive ErrKind where
  | missingPN
  | noShippingMatch
  | valueMismatch (col : List Char)
  | textMismatch (col : List Char)
  | missingItemName
  | noDutyMatch
  | invalidHS
deriving DecidableEq

/-- Errors emitted by duty validation (`validate_duty_info`). -/
def ErrKind.isAux : ErrKind → Bool
  | ErrKind.missingItemName => true
  | ErrKind.noDutyMatch => true
  | ErrKind.invalidHS => true
  | _ => false

/-- `isinstance(v, (int, float))` — note a pandas `NaN` is a float. -/
def isNumType : Cell → Bool
  | Cell.intv _ => true
  | Cell.fl _ => true
  | Cell.blank => true
  | Cell.str _ => false

/-- `math.isclose(a, b, rel_tol=0.01)` on two numeric cells:
`|a-b| <= 0.01 * max(|a|, |b|)` (with the default `abs_tol=0.0`);
any comparison against `NaN` is false. -/
def cellClose : Cell → Cell → Bool
  | Cell.blank, _ => false
  | _, Cell.blank => false
  | x, y =>
    match x, y with
    | Cell.intv n, Cell.intv m => decide (|(n : ℚ) - (m : ℚ)| ≤ 1 / 100 * max |(n : ℚ)| |(m : ℚ)|)
    | Cell.intv n, Cell.fl q => decide (|(n : ℚ) - q| ≤ 1 / 100 * max |(n : ℚ)| |q|)
    | Cell.fl q, Cell.intv m => decide (|q - (m : ℚ)| ≤ 1 / 100 * max |q| |(m : ℚ)|)
    | Cell.fl q, Cell.fl p => decide (|q - p| ≤ 1 / 100 * max |q| |p|)
    | _, _ => false

/-- `validate_text` (validator.py:328-341): lowercase both values
(fetched with default `''`), flag when the similarity ratio is below
the 0.85 threshold. -/
def validate_text (input_row reference_row : Row) (col : List Char) : List ErrKind :=
  let it := lowerL (pyStr (rowGetD input_row col (Cell.str [])))
  let rt := lowerL (pyStr (rowGetD reference_row col (Cell.str [])))
  if ratioQ it rt < 17 / 20 then [ErrKind.textMismatch col] else []

/-- `validate_columns` (validator.py:273-291): numeric pairs within 1%
relative tolerance, everything else through text similarity. -/
def validate_columns (input_row : Row) (shipping_row : Row) (cols : List (List Char)) :
    List ErrKind :=
  cols.flatMap fun col =>
    let iv := rowGetD input_row col (Cell.str nA)
    let sv := rowGetD shipping_row col (Cell.str nA)
    if isNumType iv && isNumType sv then
      if !cellClose iv sv then [ErrKind.valueMismatch col] else []
    else
      validate_text input_row shipping_row col

/-- The compared columns of `validate_sheet` (validator.py:265-268). -/
def comparedColumns : List (List Char) :=
  ["Item Nos".data, "Model Nos".data, "Description".data,
   "Quantity PCS".data, "Unit Price USD".data, "Amount USD".data]

/-! ## Cross-Reference Validator (`validate_duty_info`, validator.py:293-326) -/

/-- Coercion of the HS-code cell to the string that is format-checked:
ints print as ints (`'.' not in str(int)`), floats via
`f"{x:.10f}".rstrip('0').rstrip('.')`, strings are stripped.
`none` models the `ValueError` that `int(nan)` raises for a missing cell. -/
def hs_to_string : Cell → Option (List Char)
  | Cell.intv n => some (intStr n)
  | Cell.fl q => some (pyRstrip '.' (pyRstrip '0' (formatFixed10 q)))
  | Cell.str s => some (pyStrip s)
  | Cell.blank => none

/-- The shape regex `^(\d{4,10}(\.\d{1,10})?|\d+-\d+)$`: a 4–10 digit
code with an optional 1–10 digit decimal suffix, or a hyphenated pair of
digit runs.  Decided through the maximal leading digit run. -/
def hsShape (s : List Char) : Bool :=
  let d1 := s.takeWhile digitB
  let rest := s.dropWhile digitB
  (decide (4 ≤ d1.length ∧ d1.length ≤ 10) &&
    (rest == [] ||
      (match rest with
       | '.' :: frac => frac.all digitB && decide (1 ≤ frac.length ∧ frac.length ≤ 10)
       | _ => false))) ||
  (!(d1 == []) &&
    (match rest with
     | '-' :: d2 => !(d2 == []) && d2.all digitB
     | _ => false))

def itemNameKey : List Char := "Item name".data

def hsKey : List Char := "India HS code".data

/-- One duty row's `Item name` cell matches when it is a string
containing the (regex-escaped, hence literal) item name
case-insensitively (`str.contains(..., case=False, na=False)`). -/
def dutyNameMatches (duty_row : Row) (item : List Char) : Bool :=
  match rowGet duty_row itemNameKey with
  | some (Cell.str s) => anyIdx ((lowerL s).length + 1) fun i => litAt (lowerL s) i (lowerL item)
  | _ => false

/-- `validate_duty_info`: skip entirely when no duty data is loaded;
otherwise report a missing item name, a missing duty match, or a
malformed HS code.  `none` models the uncaught `ValueError` on
`int(nan)` (aborting the sheet's remaining rows). -/
def validate_duty_info (duty_rates : List Row) (input_row : Row) : Option (List ErrKind) :=
  if duty_rates = [] then some []
  else
    let item_name := pyStrip (pyStr (rowGetD input_row itemNameKey (Cell.str nA)))
    if item_name = nA then some [ErrKind.missingItemName]
    else if duty_rates.any (fun d => dutyNameMatches d item_name) then
      match hs_to_string (rowGetD input_row hsKey (Cell.str nA)) with
      | none => none
      | some hs => if hsShape hs then some [] else some [ErrKind.invalidHS]
    else some [ErrKind.noDutyMatch]

/-! ## Record Matcher (`validate_sheet`, validator.py:238-271) -/

def pnKey : List Char := "P/N".data

/-- The shipping lookup dictionary: each reference row keyed by its
cleaned P/N (`set_index('clean_pn').to_dict('index')` — duplicate keys
resolve to the last row). -/
def build_shipping_index (shipping_rows : List Row) : List (List Char × Row) :=
  shipping_rows.map fun r => (clean_pn_value (rowGetD r pnKey Cell.blank), r)

/-- Python dict lookup over insertion-ordered pairs: last write wins. -/
def dictGet (index : List (List Char × Row)) (k : List Char) : Option Row :=
  (List.find? (fun p => p.1 == k) index.reverse).map (·.2)

/-- Outcome of resolving one input record against the shipping index. -/
inductive PNMatch where
  | missing
  | primary (r : Row)
  | secondary (r : Row)
  | noMatch
deriving DecidableEq

def PNMatch.isSecondary : PNMatch → Bool
  | PNMatch.secondary _ => true
  | _ => false

/-- Lookup logic of validator.py:246-262: clean the input P/N; sentinel
means a missing identifier; on a direct miss retry after removing `'.'`
characters from the (already cleaned) key and re-cleaning it. -/
def resolvePN (index : List (List Char × Row)) (raw : Cell) : PNMatch :=
  let input_pn := clean_pn_value raw
  if input_pn = nA then PNMatch.missing
  else
    match dictGet index input_pn with
    | some r => PNMatch.primary r
    | none =>
      match dictGet index (clean_pn_core (input_pn.filter (fun c => !(c == '.')))) with
      | some r => PNMatch.secondary r
      | none => PNMatch.noMatch

/-- The per-row loop of `validate_sheet`: resolve the P/N, then column
validation followed by duty validation; a `none` from duty validation is
the exception that aborts the sheet (errors already logged survive). -/
def validate_sheet_rows (index : List (List Char × Row)) (duty_rates : List Row) :
    List Row → List ErrKind
  | [] => []
  | row :: rest =>
    match resolvePN index (rowGetD row pnKey (Cell.str nA)) with
    | PNMatch.missing => ErrKind.missingPN :: validate_sheet_rows index duty_rates rest
    | PNMatch.noMatch => ErrKind.noShippingMatch :: validate_sheet_rows index duty_rates rest
    | PNMatch.primary ship | PNMatch.secondary ship =>
      let colErrs := validate_columns row ship comparedColumns
      match validate_duty_info duty_rates row with
      | none => colErrs
      | some ds => colErrs ++ ds ++ validate_sheet_rows index duty_rates rest

/-- `validate_sheet`: index the shipping rows, then process every input row. -/
def validate_sheet (sheet_rows shipping_rows duty_rates : List Row) : List ErrKind :=
  validate_sheet_rows (build_shipping_index shipping_rows) duty_rates sheet_rows

/-! ## Row Extractor (`extract_valid_data`, validator.py:71-156) -/

/-- A raw DataFrame: column labels plus rows of cells. -/
structure DF where
  cols : List (List Char)
  rows : List (List Cell)
deriving DecidableEq

def emptyDF : DF := ⟨[], []⟩

/-- `clean_column_name`: drop CR/LF anywhere, then strip. -/
def clean_column_name (s : List Char) : List Char :=
  pyStrip (s.filter fun c => !(c == '\r') && !(c == '\n'))

/-- `pd.to_numeric(..., errors='coerce')` on one cell: numbers pass
through, strings are parsed as optionally signed decimal literals,
anything else coerces to `NaN`. -/
def parseDec (s : List Char) : Option ℚ :=
  let t := match s with
    | '-' :: r => r
    | '+' :: r => r
    | _ => s
  let sgn : ℚ := match s with
    | '-' :: _ => -1
    | _ => 1
  let ip := t.takeWhile digitB
  let rest := t.dropWhile digitB
  let ipv : ℚ := (ip.foldl (fun a c => 10 * a + (c.toNat - 48)) 0 : Nat)
  match rest with
  | [] => if ip = [] then none else some (sgn * ipv)
  | '.' :: frac =>
    if frac.all digitB && !(ip == [] && frac == []) then
      some (sgn * (ipv + ((frac.foldl (fun a c => 10 * a + (c.toNat - 48)) 0 : Nat) : ℚ) /
        10 ^ frac.length))
    else none
  | _ => none

def to_numeric : Cell → Option ℚ
  | Cell.blank => none
  | Cell.intv n => some n
  | Cell.fl q => some q
  | Cell.str s => parseDec (pyStrip s)

/-- The synonym table of `extract_valid_data` (validator.py:92-104),
in source order. -/
def column_mappings : List (List Char × List (List Char)) :=
  [("P/N".data, ["P/N".data, "Part Number".data, "Part No".data, "PartNo".data, "料号".data]),
   ("Item Nos".data, ["Item Nos.".data, "Item Number".data, "项目编号".data, "Item No".data]),
   ("Model Nos".data, ["Model Nos.".data, "Model Number".data, "型号".data, "Model".data]),
   ("Description".data, ["Description".data, "产品描述".data, "Desc".data]),
   ("Quantity PCS".data, ["Quantity PCS".data, "QTY".data, "数量".data, "Quantity".data]),
   ("Unit Price USD".data, ["Unit Price USD".data, "Price".data, "单价".data, "Unit Price".data]),
   ("Amount USD".data, ["Amount USD".data, "Total Amount".data, "总金额".data, "Amount".data]),
   ("India HS code".data, ["India HS code".data, "HS Code".data, "HSN Code".data]),
   ("Duty".data, ["Duty".data, "Duty Rate".data, "税率".data]),
   ("Welfare".data, ["Welfare".data, "Welfare Tax".data, "福利税".data]),
   ("IGST".data, ["IGST".data, "GST".data, "综合税".data])]

/-- Column standardization: for each canonical name, the first synonym
present in the columns is renamed to it (validator.py:110-113). -/
def applyMappings : List (List Char × List (List Char)) → List (List Char) → List (List Char)
  | [], cols => cols
  | (std, poss) :: rest, cols =>
    match poss.find? (fun p => cols.contains p) with
    | some f => applyMappings rest (cols.map fun c => if c = f then std else c)
    | none => applyMappings rest cols

def quantityCol : List Char := "Quantity".data

def cleanedPnCol : List Char := "Cleaned_P/N".data

/-- `extract_valid_data`, step by step:
header search over the first five rows; keep rows from the header row on
(`df.iloc[header_row:]` retains the header row itself); clean the
(received) column labels; standardize them through the synonym table;
require a `P/N` column; drop rows with a missing P/N and strip the rest;
if a column still named `Quantity` exists, coerce it to numeric and drop
rows failing the cast; append the `Cleaned_P/N` column; drop all-empty
columns; final emptiness checks. -/
def extract_valid_data (df : DF) : DF :=
  match findHeader5 df.rows with
  | none => emptyDF
  | some h =>
    let rows1 := df.rows.drop h
    let cols2 := applyMappings column_mappings (df.cols.map clean_column_name)
    match cols2.findIdx? (· == pnKey) with
    | none => emptyDF
    | some pnIdx =>
      let rows2 := rows1.filter fun (r : List Cell) => !(r.getD pnIdx Cell.blank == Cell.blank)
      let rows3 := rows2.map fun (r : List Cell) =>
        r.set pnIdx (Cell.str (pyStrip (pyStr (r.getD pnIdx Cell.blank))))
      let rows4 :=
        match cols2.findIdx? (· == quantityCol) with
        | none => rows3
        | some qIdx =>
          (rows3.map fun (r : List Cell) =>
            r.set qIdx (match to_numeric (r.getD qIdx Cell.blank) with
              | some q => Cell.fl q
              | none => Cell.blank)).filter
            fun (r : List Cell) => !(r.getD qIdx Cell.blank == Cell.blank)
      let cols4 := cols2 ++ [cleanedPnCol]
      let rows5 := rows4.map fun (r : List Cell) => r ++ [Cell.str (clean_pn_value (r.getD pnIdx Cell.blank))]
      let keep := (List.range cols4.length).filter fun j =>
        rows5.any fun (r : List Cell) => !(r.getD j Cell.blank == Cell.blank)
      let cols5 := keep.map fun j => cols4.getD j []
      let rows6 := rows5.map fun (r : List Cell) => keep.map fun j => r.getD j Cell.blank
      if rows6 = [] then emptyDF
      else if rows6.all (fun r => r.getD 0 Cell.blank == Cell.blank) then emptyDF
      else ⟨cols5, rows6⟩

/-! ## Helper lemmas about the identifier normalizer -/

theorem pyUpper_of_allowed (c : Char) (h : allowedB c = true) : pyUpper c = c := by
  simp only [allowedB, decide_eq_true_eq] at h
  have hc : ¬(97 ≤ c.toNat ∧ c.toNat ≤ 122) := by omega
  simp [pyUpper, hc]

theorem spaceB_of_allowed (c : Char) (h : allowedB c = true) : spaceB c = false := by
  simp only [allowedB, decide_eq_true_eq] at h
  simp only [spaceB, decide_eq_false_iff_not]
  omega

theorem dot_of_allowed (c : Char) (h : allowedB c = true) : (c == '.') = false := by
  have hne : c ≠ '.' := by
    intro he
    rw [he] at h
    exact absurd h (by decide)
  simpa using hne

theorem dropWhile_eq_self_of (p : Char → Bool) (l : List Char)
    (h : ∀ c ∈ l, p c = false) : l.dropWhile p = l := by
  cases l with
  | nil => rfl
  | cons a t =>
    rw [List.dropWhile_cons, h a (by simp)]
    simp

theorem map_eq_self_of (f : Char → Char) (l : List Char)
    (h : ∀ c ∈ l, f c = c) : l.map f = l := by
  induction l with
  | nil => rfl
  | cons a t ih =>
    simp only [List.map_cons, h a (by simp), List.cons.injEq, true_and]
    exact ih fun c hc => h c (by simp [hc])

theorem pyStrip_eq_self (l : List Char) (h : ∀ c ∈ l, spaceB c = false) :
    pyStrip l = l := by
  unfold pyStrip dropEnd
  rw [dropWhile_eq_self_of spaceB l h,
    dropWhile_eq_self_of spaceB l.reverse (fun c hc => h c (List.mem_reverse.mp hc)),
    List.reverse_reverse]

theorem clean_pn_core_eq_self (r : List Char) (hall : ∀ c ∈ r, allowedB c = true)
    (hne : r ≠ []) : clean_pn_core r = r := by
  unfold clean_pn_core upperL
  rw [map_eq_self_of pyUpper r (fun c hc => pyUpper_of_allowed c (hall c hc)),
    pyStrip_eq_self r (fun c hc => spaceB_of_allowed c (hall c hc)),
    List.filter_eq_self.mpr hall]
  simp [hne]

theorem clean_pn_core_ne_nA (s : List Char) (h : clean_pn_core s ≠ nA) :
    (∀ c ∈ clean_pn_core s, allowedB c = true) ∧ clean_pn_core s ≠ [] := by
  unfold clean_pn_core at *
  by_cases he : (pyStrip (upperL s)).filter allowedB = []
  · simp [he] at h
  · simp only [he, ite_false]
    exact ⟨fun c hc => (List.mem_filter.mp hc).2, he⟩

/-- Idempotence off the sentinel: re-normalizing an already-normalized,
non-sentinel key is the identity. -/
theorem clean_pn_core_idem (s : List Char) (h : clean_pn_core s ≠ nA) :
    clean_pn_core (clean_pn_core s) = clean_pn_core s := by
  obtain ⟨hall, hne⟩ := clean_pn_core_ne_nA s h
  exact clean_pn_core_eq_self _ hall hne

/-- Removing dots from a non-sentinel normalized key is the identity:
the normalizer already removed every `'.'`. -/
theorem clean_key_filter_dot (s : List Char) (h : clean_pn_core s ≠ nA) :
    (clean_pn_core s).filter (fun c => !(c == '.')) = clean_pn_core s := by
  obtain ⟨hall, _⟩ := clean_pn_core_ne_nA s h
  exact List.filter_eq_self.mpr fun c hc => by
    rw [dot_of_allowed c (hall c hc)]
    rfl

/-! ## Helper lemmas about the header scan -/

/-- The bounded scan reads only the first `n` rows. -/
theorem firstHeaderIdx_take (l : List (List Cell)) (n : Nat) :
    firstHeaderIdx l n = firstHeaderIdx (l.take n) n := by
  induction l generalizing n with
  | nil => simp [List.take_nil]
  | cons r rs ih =>
    cases n with
    | zero => simp [firstHeaderIdx]
    | succ m =>
      simp only [List.take_succ_cons, firstHeaderIdx]
      by_cases h : is_header_row r
      · simp [h]
      · simp only [h, ite_false]
        rw [ih m]

/-- `some i` means: `i` is inside the window and the grid, row `i`
qualifies, and no earlier row qualifies. -/
theorem firstHeaderIdx_eq_some (l : List (List Cell)) (n i : Nat) :
    firstHeaderIdx l n = some i ↔
      (i < n ∧ i < l.length ∧ is_header_row (l.getD i []) = true ∧
        ∀ j < i, is_header_row (l.getD j []) = false) := by
  induction l generalizing n i with
  | nil => simp [firstHeaderIdx]
  | cons r rs ih =>
    cases n with
    | zero => simp [firstHeaderIdx]
    | succ m =>
      simp only [firstHeaderIdx]
      by_cases h : is_header_row r
      · simp only [h, ite_true]
        constructor
        · intro hs
          obtain rfl : i = 0 := by
            cases hs
            rfl
          simpa using h
        · intro ⟨_, _, hhd, hlt⟩
          cases i with
          | zero => rfl
          | succ i' => exact absurd h (by simpa using hlt 0 (Nat.succ_pos i'))
      · simp only [h, ite_false]
        constructor
        · intro hs
          obtain ⟨i', hi', rfl⟩ := Option.map_eq_some'.mp hs
          obtain ⟨h1, h2, h3, h4⟩ := (ih m i').mp hi'
          refine ⟨by omega, by simpa using h2, by simpa using h3, ?_⟩
          intro j hj
          cases j with
          | zero => simpa using h
          | succ j' => simpa using h4 j' (by omega)
        · intro ⟨h1, h2, h3, h4⟩
          cases i with
          | zero => exact absurd (by simpa using h3) h
          | succ i' =>
            rw [(ih m i').mpr ⟨by omega, by simpa using h2, by simpa using h3,
              fun j hj => by simpa using h4 (j + 1) (by omega)⟩]
            rfl

/-- `none` means: no row inside the window qualifies. -/
theorem firstHeaderIdx_eq_none (l : List (List Cell)) (n : Nat) :
    firstHeaderIdx l n = none ↔
      ∀ j, j < n → j < l.length → is_header_row (l.getD j []) = false := by
  induction l generalizing n with
  | nil => simp [firstHeaderIdx]
  | cons r rs ih =>
    cases n with
    | zero => simp [firstHeaderIdx]
    | succ m =>
      simp only [firstHeaderIdx]
      by_cases h : is_header_row r
      · simp only [h, ite_true]
        constructor
        · intro hs
          cases hs
        · intro hall
          exact absurd h (by simpa using hall 0 (Nat.succ_pos m) (Nat.succ_pos rs.length))
      · simp only [h, ite_false]
        constructor
        · intro hs j hj hjl
          cases j with
          | zero => simpa using h
          | succ j' =>
            have : firstHeaderIdx rs m = none := by
              cases hm : firstHeaderIdx rs m
              · rfl
              · rw [hm] at hs
                cases hs
            simpa using (ih m).mp this j' (by omega) (by simpa using hjl)
        · intro hall
          rw [(ih m).mpr fun j hj hjl => by
            simpa using hall (j + 1) (by omega) (by simpa using hjl)]
          rfl

/-! ## Helper lemmas about the similarity ratio and the matchers -/

theorem flm_a_nil (s : List Char) (blo bhi : Nat) : flm [] s 0 0 blo bhi = (0, blo, 0) := by
  simp [flm, List.range']

theorem totalM_a_nil (s : List Char) : totalM [] s = 0 := by
  simp [totalM, blocksSum, flm_a_nil]

theorem flmRow_b_nil (s : List Char) (i : Nat) (x : Nat × Nat × Nat) :
    flmRow s [] 0 0 i [] x = ([], x) := by
  simp [flmRow, List.range']

theorem flm_b_nil (s : List Char) (alo ahi : Nat) : flm s [] alo ahi 0 0 = (alo, 0, 0) := by
  unfold flm
  have key : ∀ (L : List Nat) (x : Nat × Nat × Nat),
      (L.foldl (fun (st : List Nat × (Nat × Nat × Nat)) i => flmRow s [] 0 0 i st.1 st.2)
        ([], x)) = ([], x) := by
    intro L
    induction L with
    | nil => intro x; rfl
    | cons a t ih =>
      intro x
      simp only [List.foldl_cons, flmRow_b_nil]
      exact ih x
  simp only [List.length_nil, List.replicate, Nat.sub_zero]
  rw [key (List.range' alo (ahi - alo)) (alo, 0, 0)]

theorem totalM_b_nil (s : List Char) : totalM s [] = 0 := by
  simp [totalM, blocksSum, flm_b_nil]

/-- The similarity of the empty string to any non-empty string is 0. -/
theorem ratioQ_nil_left (s : List Char) (h : s ≠ []) : ratioQ [] s = 0 := by
  have hl : s.length ≠ 0 := by simpa using h
  simp [ratioQ, totalM_a_nil, hl]

/-- The similarity of any non-empty string to the empty string is 0. -/
theorem ratioQ_nil_right (s : List Char) (h : s ≠ []) : ratioQ s [] = 0 := by
  have hl : s.length ≠ 0 := by simpa using h
  simp [ratioQ, totalM_b_nil, hl]

/-! ## Helper lemmas about error kinds and record matching -/

/-- `validate_text` only ever reports a text mismatch. -/
theorem validate_text_not_aux (a b : Row) (col : List Char) :
    ∀ e ∈ validate_text a b col, e.isAux = false := by
  intro e he
  unfold validate_text at he
  dsimp only at he
  split at he
  · simp only [List.mem_singleton] at he
    subst he
    rfl
  · cases he

/-- `validate_columns` only ever reports value or text mismatches. -/
theorem validate_columns_not_aux (cols : List (List Char)) (a b : Row) :
    ∀ e ∈ validate_columns a b cols, e.isAux = false := by
  intro e he
  unfold validate_columns at he
  rw [List.mem_flatMap] at he
  obtain ⟨c, _, he⟩ := he
  dsimp only at he
  split at he
  · split at he
    · simp only [List.mem_singleton] at he
      subst he
      rfl
    · cases he
  · exact validate_text_not_aux a b c e he

/-- The fallback lookup of `validate_sheet` never resolves anything:
its key — the cleaned input P/N with dots removed and re-cleaned —
always equals the primary key, because cleaning already removed every
dot, so the second `dict.get` repeats the first (missed) one. -/
theorem resolvePN_not_secondary (index : List (List Char × Row)) (raw : Cell) :
    (resolvePN index raw).isSecondary = false := by
  unfold resolvePN
  by_cases h1 : clean_pn_value raw = nA
  · simp [h1, PNMatch.isSecondary]
  · simp only [h1, ite_false]
    cases hd : dictGet index (clean_pn_value raw) with
    | some r => rfl
    | none =>
      unfold clean_pn_value at *
      rw [clean_key_filter_dot (pyStr raw) h1, clean_pn_core_idem (pyStr raw) h1, hd]
      rfl

/-! ## Concrete fixtures used by the claim theorems -/

def strRow (l : List String) : List Cell := l.map fun s => Cell.str s.data

def shipRowP100 : Row := [("P/N".data, Cell.str "P100".data)]

def shipIndexP100 : List (List Char × Row) := build_shipping_index [shipRowP100]

def amountKey : List Char := "Amount USD".data

def descKey : List Char := "Description".data

/-- `ratioQ` away from the empty/empty corner. -/
theorem ratioQ_eq (a b : List Char) (h : a.length + b.length ≠ 0) :
    ratioQ a b = 2 * (totalM a b : ℚ) / ((a.length : ℚ) + (b.length : ℚ)) := by
  simp [ratioQ, h]

theorem floor_int_add_half (n : ℤ) : ⌊(n : ℚ) + 1 / 2⌋ = n := by
  rw [Int.floor_eq_iff]
  constructor
  · norm_num
  · norm_num

/-! ## C1 — fallback identifier lookup -/

/-- C1 counterexample: an input identifier `"P-100"` against a reference
identifier `"P100"` resolves in the **primary** lookup pass — cleaning
already strips the hyphen — not in the secondary pass the claim names. -/
theorem c1_secondary_pass_counterexample :
    resolvePN shipIndexP100 (Cell.str "P-100".data) = PNMatch.primary shipRowP100 ∧
      (resolvePN shipIndexP100 (Cell.str "P-100".data)).isSecondary = false := by
  constructor
  · decide
  · decide

/-- C1 (amended): on a primary miss a second lookup is indeed performed,
but its key — the cleaned key with `'.'` characters removed and cleaned
again — always equals the primary key, so the secondary pass never
resolves any record; `"P-100"` vs `"P100"` resolves via the primary pass
because normalization already removes the punctuation. -/
theorem c1_secondary_pass_never_resolves :
    (∀ (index : List (List Char × Row)) (raw : Cell),
        (resolvePN index raw).isSecondary = false) ∧
      resolvePN shipIndexP100 (Cell.str "P-100".data) = PNMatch.primary shipRowP100 :=
  ⟨resolvePN_not_secondary, by decide⟩

/-! ## C2 — numeric field tolerance -/

/-- C2: for numeric cell pairs the validator flags a mismatch exactly
when `|a-b| > 0.01 * max(|a|, |b|)`; `1000` vs `1009` passes and `1000`
vs `1020` is flagged. -/
theorem c2_numeric_tolerance :
    (∀ a b : ℚ,
        validate_columns [(amountKey, Cell.fl a)] [(amountKey, Cell.fl b)] [amountKey] =
            [ErrKind.valueMismatch amountKey] ↔
          |a - b| > 1 / 100 * max |a| |b|) ∧
      validate_columns [(amountKey, Cell.fl 1000)] [(amountKey, Cell.fl 1009)] [amountKey] =
        [] ∧
      validate_columns [(amountKey, Cell.fl 1000)] [(amountKey, Cell.fl 1020)] [amountKey] =
        [ErrKind.valueMismatch amountKey] := by
  have key : ∀ a b : ℚ,
      validate_columns [(amountKey, Cell.fl a)] [(amountKey, Cell.fl b)] [amountKey] =
        if |a - b| ≤ 1 / 100 * max |a| |b| then [] else [ErrKind.valueMismatch amountKey] := by
    intro a b
    simp only [validate_columns, List.flatMap_cons, List.flatMap_nil, List.append_nil]
    have hiv : rowGetD [(amountKey, Cell.fl a)] amountKey (Cell.str nA) = Cell.fl a := rfl
    have hsv : rowGetD [(amountKey, Cell.fl b)] amountKey (Cell.str nA) = Cell.fl b := rfl
    rw [hiv, hsv]
    simp only [isNumType, Bool.and_self, ite_true, cellClose]
    by_cases hP : |a - b| ≤ 1 / 100 * max |a| |b|
    · rw [one_div] at hP
      simp only [Bool.not_eq_true', decide_eq_false_iff_not, not_le, one_div]
      rw [if_neg (not_lt.mpr hP), if_pos hP]
    · rw [one_div] at hP
      simp only [Bool.not_eq_true', decide_eq_false_iff_not, not_le, one_div]
      rw [if_pos (not_le.mp hP), if_neg hP]
  refine ⟨fun a b => ?_, ?_, ?_⟩
  · rw [key]
    by_cases hP : |a - b| ≤ 1 / 100 * max |a| |b|
    · rw [if_pos hP]
      exact iff_of_false (by simp) (not_lt.mpr hP)
    · rw [if_neg hP]
      exact iff_of_true rfl (not_le.mp hP)
  · rw [key, if_pos (by norm_num)]
  · rw [key, if_neg (by norm_num)]

/-! ## C4 — idempotence of the identifier normalizer -/

/-- C4 counterexample: an input normalizing to the sentinel `"N/A"`
breaks idempotence — the empty string normalizes to `"N/A"`, and
normalizing `"N/A"` strips the slash, yielding `"NA"`. -/
theorem c4_idempotence_counterexample :
    clean_pn_value (Cell.str []) = nA ∧
      clean_pn_value (Cell.str (clean_pn_value (Cell.str []))) = "NA".data ∧
      (clean_pn_value (Cell.str (clean_pn_value (Cell.str []))) ==
        clean_pn_value (Cell.str [])) = false := by
  refine ⟨rfl, rfl, ?_⟩
  decide

/-- C4 (amended): the normalizer is idempotent on every input whose
normalization is not the sentinel `"N/A"`; sentinel-producing inputs
renormalize to `"NA"` instead. -/
theorem c4_idempotent_off_sentinel (x : Cell) (h : clean_pn_value x ≠ nA) :
    clean_pn_value (Cell.str (clean_pn_value x)) = clean_pn_value x :=
  clean_pn_core_idem (pyStr x) h

/-- C4 witness: idempotence at the concrete non-sentinel input `"P-100"`. -/
theorem c4_idempotent_off_sentinel_witness :
    clean_pn_value (Cell.str "P-100".data) ≠ nA ∧
      clean_pn_value (Cell.str (clean_pn_value (Cell.str "P-100".data))) =
        clean_pn_value (Cell.str "P-100".data) :=
  ⟨by decide, c4_idempotent_off_sentinel (Cell.str "P-100".data) (by decide)⟩

/-! ## C3 — header quorum rule -/

/-- C3: a row qualifies as header exactly when at least 3 of the 4
concept patterns match the joined, lowercased row text; the scan returns
the first qualifying index inside the window or nothing; a row with all
four concepts (any order/casing) qualifies, a row with only two never
does. -/
theorem c3_header_quorum :
    (∀ row : List Cell, is_header_row row = true ↔ 3 ≤ matchCount (rowText row)) ∧
      (∀ rows i, findHeader5 rows = some i ↔
        (i < 5 ∧ i < rows.length ∧ is_header_row (rows.getD i []) = true ∧
          ∀ j < i, is_header_row (rows.getD j []) = false)) ∧
      (∀ rows, findHeader5 rows = none ↔
        ∀ j, j < 5 → j < rows.length → is_header_row (rows.getD j []) = false) ∧
      is_header_row (strRow ["Item No.", "Model No.", "P/N", "Quantity (PCS)"]) = true ∧
      is_header_row (strRow ["QUANTITY (pcs)", "p/n", "MODEL no.", "Item NO."]) = true ∧
      is_header_row (strRow ["P/N", "Quantity PCS"]) = false :=
  ⟨fun row => by simp [is_header_row],
   fun rows i => firstHeaderIdx_eq_some rows 5 i,
   fun rows => firstHeaderIdx_eq_none rows 5,
   by decide, by decide, by decide⟩

/-- C3 witness: the scan applied to a concrete grid — a noise row
followed by a four-concept header — returns index 1. -/
theorem c3_header_quorum_witness :
    findHeader5 [strRow ["shipping manifest"],
      strRow ["Item No.", "Model No.", "P/N", "Quantity (PCS)"]] = some 1 := by
  apply (c3_header_quorum.2.1 _ 1).mpr
  refine ⟨by norm_num, by norm_num, by decide, ?_⟩
  intro j hj
  interval_cases j
  decide

/-! ## C6 — bounded header window -/

def inputDeepGrid : List (List Cell) :=
  [strRow ["a"], strRow ["b"], strRow ["c"], strRow ["d"], strRow ["e"],
   strRow ["Item No.", "Model No.", "P/N", "Quantity (PCS)"]]

def dutyDeepGrid : List (List Cell) :=
  [strRow ["a"], strRow ["b"], strRow ["c"], strRow ["d"], strRow ["e"],
   strRow ["Item name", "India HS code"]]

/-- C6 counterexample: the duty-rate loader scans the whole grid — with
its header criterion failing on each of the first five rows, a header at
index 5 is still detected, not reported as "not found". -/
theorem c6_window_counterexample :
    find_duty_header dutyDeepGrid = some 5 ∧
      (dutyDeepGrid.take 5).all (fun r => !dutyHeaderPred r) = true := by
  constructor
  · decide
  · decide

/-- C6 (amended): the pattern-based header location used for input and
shipping sheets inspects only the first five rows — a qualifying header
at index 5 is not detected and the sheet is reported header-less — but
the duty-rate loader scans every row with its exact-cell criterion and
does detect a deeper header. -/
theorem c6_window_amended :
    (∀ rows, findHeader5 rows = findHeader5 (rows.take 5)) ∧
      (∀ rows, findHeader5 rows = none ↔
        ∀ j, j < 5 → j < rows.length → is_header_row (rows.getD j []) = false) ∧
      findHeader5 inputDeepGrid = none ∧
      is_header_row (inputDeepGrid.getD 5 []) = true ∧
      extract_valid_data ⟨["P/N".data], inputDeepGrid⟩ = emptyDF ∧
      find_duty_header dutyDeepGrid = some 5 :=
  ⟨fun rows => firstHeaderIdx_take rows 5,
   fun rows => firstHeaderIdx_eq_none rows 5,
   by decide, by decide, by decide, by decide⟩

/-- C6 witness: the window-restriction equation applied at the concrete
deep-header grid. -/
theorem c6_window_amended_witness :
    findHeader5 inputDeepGrid = findHeader5 (inputDeepGrid.take 5) :=
  c6_window_amended.1 inputDeepGrid

/-! ## C5 — the quantity cast never fires for the mapped column -/

def dfQuantityBug : DF :=
  ⟨["P/N".data, "Quantity".data, "Item Nos".data, "Model Nos".data],
   [strRow ["Item No", "Model No", "P/N", "Quantity PCS"],
    strRow ["A1", "abc", "x", "y"]]⟩

/-- C5: a sheet whose quantity column arrives labelled `Quantity` — a
listed synonym — is renamed to `Quantity PCS` *before* the numeric-cast
step looks for a column still named `Quantity`, so the cast never runs
and a row with the non-numeric quantity `"abc"` survives extraction. -/
theorem c5_nonnumeric_quantity_retained :
    (extract_valid_data dfQuantityBug).cols =
      ["P/N".data, "Quantity PCS".data, "Item Nos".data, "Model Nos".data,
        "Cleaned_P/N".data] ∧
      (extract_valid_data dfQuantityBug).rows.getD 1 [] =
        [Cell.str "A1".data, Cell.str "abc".data, Cell.str "x".data, Cell.str "y".data,
          Cell.str "A1".data] ∧
      to_numeric (Cell.str "abc".data) = none := by
  refine ⟨by decide, by decide, rfl⟩

/-! ## C7 — text similarity threshold -/

theorem ratio_bearing_trailing_space :
    ratioQ "bearing assembly".data "bearing assembly ".data = 32 / 33 := by
  rw [ratioQ_eq _ _ (by decide),
    show totalM "bearing assembly".data "bearing assembly ".data = 16 from by decide,
    show ("bearing assembly".data.length) = 16 from by decide,
    show ("bearing assembly ".data.length) = 17 from by decide]
  norm_num

theorem ratio_bearing_gasket :
    ratioQ "bearing assembly".data "gasket".data = 4 / 11 := by
  rw [ratioQ_eq _ _ (by decide),
    show totalM "bearing assembly".data "gasket".data = 4 from by decide,
    show ("bearing assembly".data.length) = 16 from by decide,
    show ("gasket".data.length) = 6 from by decide]
  norm_num

/-- C7 counterexample: the two description variants differ by a trailing
space, and their lowercased similarity is 32/33 — strictly below the 1.0
the claim asserts. -/
theorem c7_similarity_counterexample :
    ratioQ (lowerL "Bearing Assembly".data) (lowerL "BEARING ASSEMBLY ".data) = 32 / 33 ∧
      (32 / 33 : ℚ) < 1 := by
  constructor
  · rw [show lowerL "Bearing Assembly".data = "bearing assembly".data from by decide,
      show lowerL "BEARING ASSEMBLY ".data = "bearing assembly ".data from by decide]
    exact ratio_bearing_trailing_space
  · norm_num

/-- C7 (amended): the text comparison lowercases both sides and flags a
mismatch exactly when the similarity ratio is below 0.85; the
trailing-space pair has similarity 32/33 (≈ 0.97, not 1.0), still above
the threshold, so no mismatch; `"Bearing Assembly"` vs `"Gasket"` is
flagged. -/
theorem c7_text_threshold :
    (∀ (a b : Row) (col : List Char),
        validate_text a b col = [ErrKind.textMismatch col] ↔
          ratioQ (lowerL (pyStr (rowGetD a col (Cell.str []))))
            (lowerL (pyStr (rowGetD b col (Cell.str [])))) < 17 / 20) ∧
      ratioQ (lowerL "Bearing Assembly".data) (lowerL "BEARING ASSEMBLY ".data) = 32 / 33 ∧
      (17 / 20 : ℚ) ≤ 32 / 33 ∧
      validate_text [(descKey, Cell.str "Bearing Assembly".data)]
        [(descKey, Cell.str "BEARING ASSEMBLY ".data)] descKey = [] ∧
      validate_text [(descKey, Cell.str "Bearing Assembly".data)]
        [(descKey, Cell.str "Gasket".data)] descKey = [ErrKind.textMismatch descKey] := by
  refine ⟨fun a b col => ?_, ?_, by norm_num, ?_, ?_⟩
  · unfold validate_text
    dsimp only
    split
    next h => exact iff_of_true rfl h
    next h => exact iff_of_false (by simp) h
  · rw [show lowerL "Bearing Assembly".data = "bearing assembly".data from by decide,
      show lowerL "BEARING ASSEMBLY ".data = "bearing assembly ".data from by decide]
    exact ratio_bearing_trailing_space
  · unfold validate_text
    rw [show lowerL (pyStr (rowGetD [(descKey, Cell.str "Bearing Assembly".data)] descKey
          (Cell.str []))) = "bearing assembly".data from by decide,
      show lowerL (pyStr (rowGetD [(descKey, Cell.str "BEARING ASSEMBLY ".data)] descKey
          (Cell.str []))) = "bearing assembly ".data from by decide]
    dsimp only
    rw [ratio_bearing_trailing_space, if_neg (by norm_num)]
  · unfold validate_text
    rw [show lowerL (pyStr (rowGetD [(descKey, Cell.str "Bearing Assembly".data)] descKey
          (Cell.str []))) = "bearing assembly".data from by decide,
      show lowerL (pyStr (rowGetD [(descKey, Cell.str "Gasket".data)] descKey
          (Cell.str []))) = "gasket".data from by decide]
    dsimp only
    rw [ratio_bearing_gasket, if_pos (by norm_num)]

/-! ## C8 — auxiliary (HS) code format check -/

theorem hs_to_string_float_8501_1 :
    hs_to_string (Cell.fl (85011 / 10)) = some "8501.1".data := by
  show some (pyRstrip '.' (pyRstrip '0' (formatFixed10 (85011 / 10)))) = _
  rw [formatFixed10, if_neg (by norm_num : ¬((85011 : ℚ) / 10 < 0))]
  unfold formatFixed10nn
  rw [show ((85011 : ℚ) / 10 * 10 ^ 10 + 1 / 2) = ((85011000000000 : ℤ) : ℚ) + 1 / 2 from by
      norm_num,
    floor_int_add_half]
  decide

/-- C8: when the duty table is non-empty, the item name is present and
some duty row matches it, `InvalidAuxCodeFormat` is emitted exactly when
the coerced code string fails the 4–10-digit / decimal-suffix /
hyphenated-range shape; the float `8501.10` coerces to `"8501.1"` and
passes, `"12-34"` passes, `"ABCDE"` fails. -/
theorem c8_aux_code_format :
    (∀ (duty : List Row) (row : Row) (hs : List Char),
        duty ≠ [] →
        pyStrip (pyStr (rowGetD row itemNameKey (Cell.str nA))) ≠ nA →
        (duty.any fun d =>
          dutyNameMatches d (pyStrip (pyStr (rowGetD row itemNameKey (Cell.str nA))))) = true →
        hs_to_string (rowGetD row hsKey (Cell.str nA)) = some hs →
        (validate_duty_info duty row = some [ErrKind.invalidHS] ↔ hsShape hs = false)) ∧
      hs_to_string (Cell.fl (85011 / 10)) = some "8501.1".data ∧
      hsShape "8501.1".data = true ∧
      hsShape "12-34".data = true ∧
      hsShape "ABCDE".data = false := by
  refine ⟨fun duty row hs h1 h2 h3 h4 => ?_, hs_to_string_float_8501_1, by decide, by decide,
    by decide⟩
  unfold validate_duty_info
  rw [if_neg h1]
  dsimp only
  rw [if_neg h2, if_pos h3, h4]
  dsimp only
  cases h5 : hsShape hs with
  | true => simp
  | false => simp

def dutyTableBearing : List Row :=
  [[("Item name".data, Cell.str "Bearing Assembly Kit".data)]]

def rowBadHS : Row :=
  [(itemNameKey, Cell.str "bearing assembly".data), (hsKey, Cell.str "ABCDE".data)]

/-- C8 witness: a matching duty row plus the malformed code `"ABCDE"`
produce exactly the `InvalidAuxCodeFormat` error. -/
theorem c8_aux_code_format_witness :
    validate_duty_info dutyTableBearing rowBadHS = some [ErrKind.invalidHS] :=
  (c8_aux_code_format.1 dutyTableBearing rowBadHS "ABCDE".data (by decide) (by decide)
    (by decide) (by decide)).mpr (by decide)

/-! ## C9 — empty duty table short-circuits auxiliary validation -/

theorem validate_columns_all_not_aux (a b : Row) (cols : List (List Char)) :
    ((validate_columns a b cols).all fun e => !e.isAux) = true := by
  rw [List.all_eq_true]
  intro e he
  rw [validate_columns_not_aux cols a b e he]
  rfl

theorem validate_sheet_rows_empty_duty (index : List (List Char × Row)) :
    ∀ rows : List Row, ((validate_sheet_rows index [] rows).all fun e => !e.isAux) = true := by
  intro rows
  induction rows with
  | nil => rfl
  | cons row rest ih =>
    unfold validate_sheet_rows
    cases hr : resolvePN index (rowGetD row pnKey (Cell.str nA)) with
    | missing =>
      dsimp only
      rw [List.all_cons, ih]
      rfl
    | noMatch =>
      dsimp only
      rw [List.all_cons, ih]
      rfl
    | primary ship =>
      dsimp only
      rw [show validate_duty_info [] row = some [] from rfl]
      simp only [List.append_nil, List.all_append, validate_columns_all_not_aux, ih,
        Bool.and_self]
    | secondary ship =>
      dsimp only
      rw [show validate_duty_info [] row = some [] from rfl]
      simp only [List.append_nil, List.all_append, validate_columns_all_not_aux, ih,
        Bool.and_self]

/-- C9: with an empty duty table, `validate_duty_info` returns
immediately for every record, and a whole sheet run aggregates no
auxiliary-validation errors (no missing-item-name, no-duty-match or
invalid-HS entries). -/
theorem c9_empty_duty_no_aux_errors :
    (∀ row : Row, validate_duty_info [] row = some []) ∧
      ∀ sheet_rows shipping_rows : List Row,
        ((validate_sheet sheet_rows shipping_rows []).all fun e => !e.isAux) = true :=
  ⟨fun _ => rfl, fun sheet _ => validate_sheet_rows_empty_duty _ sheet⟩

/-! ## C10 — fields missing on one side -/

/-- C10: a compared field absent from exactly one matched record while
the other side is non-empty always yields a text mismatch (the missing
side compares as the empty string, whose similarity to any non-empty
string is 0 < 0.85); a field absent from both yields no error
(empty-vs-empty similarity is 1). -/
theorem c10_one_sided_field_mismatch :
    (∀ (input ref : Row) (col : List Char) (v : Cell),
        rowGet input col = none → rowGet ref col = some v → pyStr v ≠ [] →
        validate_columns input ref [col] = [ErrKind.textMismatch col]) ∧
      (∀ (input ref : Row) (col : List Char) (v : Cell),
        rowGet input col = some v → rowGet ref col = none → pyStr v ≠ [] →
        validate_columns input ref [col] = [ErrKind.textMismatch col]) ∧
      ∀ (input ref : Row) (col : List Char),
        rowGet input col = none → rowGet ref col = none →
        validate_columns input ref [col] = [] := by
  refine ⟨fun input ref col v h1 h2 h3 => ?_, fun input ref col v h1 h2 h3 => ?_,
    fun input ref col h1 h2 => ?_⟩
  · simp only [validate_columns, List.flatMap_cons, List.flatMap_nil, List.append_nil]
    rw [show rowGetD input col (Cell.str nA) = Cell.str nA from by simp [rowGetD, h1]]
    simp only [isNumType, Bool.false_and, Bool.false_eq_true, ite_false]
    unfold validate_text
    rw [show rowGetD input col (Cell.str []) = Cell.str [] from by simp [rowGetD, h1],
      show rowGetD ref col (Cell.str []) = v from by simp [rowGetD, h2]]
    dsimp only
    have hlv : lowerL (pyStr v) ≠ [] := by
      intro hmap
      exact h3 (List.map_eq_nil_iff.mp hmap)
    rw [show lowerL (pyStr (Cell.str [])) = [] from rfl, ratioQ_nil_left _ hlv,
      if_pos (by norm_num)]
  · simp only [validate_columns, List.flatMap_cons, List.flatMap_nil, List.append_nil]
    rw [show rowGetD ref col (Cell.str nA) = Cell.str nA from by simp [rowGetD, h2],
      show rowGetD input col (Cell.str nA) = v from by simp [rowGetD, h1]]
    simp only [isNumType, Bool.and_false, Bool.false_eq_true, ite_false]
    unfold validate_text
    rw [show rowGetD ref col (Cell.str []) = Cell.str [] from by simp [rowGetD, h2],
      show rowGetD input col (Cell.str []) = v from by simp [rowGetD, h1]]
    dsimp only
    have hlv : lowerL (pyStr v) ≠ [] := by
      intro hmap
      exact h3 (List.map_eq_nil_iff.mp hmap)
    rw [show lowerL (pyStr (Cell.str [])) = [] from rfl, ratioQ_nil_right _ hlv,
      if_pos (by norm_num)]
  · simp only [validate_columns, List.flatMap_cons, List.flatMap_nil, List.append_nil]
    rw [show rowGetD input col (Cell.str nA) = Cell.str nA from by simp [rowGetD, h1]]
    simp only [isNumType, Bool.false_and, Bool.false_eq_true, ite_false]
    unfold validate_text
    rw [show rowGetD input col (Cell.str []) = Cell.str [] from by simp [rowGetD, h1],
      show rowGetD ref col (Cell.str []) = Cell.str [] from by simp [rowGetD, h2]]
    dsimp only
    rw [show ratioQ (lowerL (pyStr (Cell.str []))) (lowerL (pyStr (Cell.str []))) = 1 from rfl,
      if_neg (by norm_num)]

/-- C10 witness: a record with no `Description` field against a
reference reading `"Gasket"` is flagged as a text mismatch. -/
theorem c10_one_sided_field_mismatch_witness :
    validate_columns [] [(descKey, Cell.str "Gasket".data)] [descKey] =
      [ErrKind.textMismatch descKey] :=
  c10_one_sided_field_mismatch.1 [] [(descKey, Cell.str "Gasket".data)] descKey
    (Cell.str "Gasket".data) rfl (by decide) (by decide)
